import Mathlib

/-!
Verification of the `alloc-wg` rustdoc implementors artifact.

The repository consists of two machine-generated JavaScript files
(`implementors/core/marker/trait.Send.js` and a second file of unknown name
holding the `trait.Drop` implementors).  Each file is an IIFE of the shape

  (function() \x7b var implementors = \x7b\x7d;
  implementors["alloc_wg"] = [\x7btext:"...",synthetic:...,types:["..."]\x7d, ...];
  if (window.register_implementors) \x7b
      window.register_implementors(implementors);
  \x7d else \x7b
      window.pending_implementors = implementors;
  \x7d
  \x7d)()

This file embeds the record type, both literal tables, the relevant part of
the host (`window`) state, and the load behaviour of the IIFE, and proves the
stated properties about them.
-/

namespace AllocWg

/-- One implementor record, literally as in the generated files: the rendered
signature markup `text`, the `synthetic` flag, and the list `types` of
type-path strings. -/
structure ImplementorRecord where
  text : String
  synthetic : Bool
  types : List String
deriving DecidableEq, Repr

/-- An implementors table: the JS object `implementors`, a finite mapping from
string keys to ordered record lists, kept as an association list. -/
abbrev Table := List (String × List ImplementorRecord)


namespace TraitSend

/-- The literal `implementors` table of `src/implementors/core/marker/trait.Send.js`. -/
def implementors : Table := [("alloc_wg",
  [
   ImplementorRecord.mk "impl <a class=\"trait\" href=\"https://doc.rust-lang.org/nightly/core/marker/trait.Send.html\" title=\"trait core::marker::Send\">Send</a> for <a class=\"struct\" href=\"alloc_wg/alloc/struct.LayoutErr.html\" title=\"struct alloc_wg::alloc::LayoutErr\">LayoutErr</a>" true ["alloc_wg::alloc::layout::LayoutErr"],
   ImplementorRecord.mk "impl <a class=\"trait\" href=\"https://doc.rust-lang.org/nightly/core/marker/trait.Send.html\" title=\"trait core::marker::Send\">Send</a> for <a class=\"struct\" href=\"alloc_wg/alloc/struct.NonZeroLayout.html\" title=\"struct alloc_wg::alloc::NonZeroLayout\">NonZeroLayout</a>" true ["alloc_wg::alloc::layout::NonZeroLayout"],
   ImplementorRecord.mk "impl <a class=\"trait\" href=\"https://doc.rust-lang.org/nightly/core/marker/trait.Send.html\" title=\"trait core::marker::Send\">Send</a> for <a class=\"struct\" href=\"alloc_wg/alloc/struct.CapacityOverflow.html\" title=\"struct alloc_wg::alloc::CapacityOverflow\">CapacityOverflow</a>" true ["alloc_wg::alloc::CapacityOverflow"],
   ImplementorRecord.mk "impl <a class=\"trait\" href=\"https://doc.rust-lang.org/nightly/core/marker/trait.Send.html\" title=\"trait core::marker::Send\">Send</a> for <a class=\"struct\" href=\"alloc_wg/alloc/struct.AllocErr.html\" title=\"struct alloc_wg::alloc::AllocErr\">AllocErr</a>" true ["alloc_wg::alloc::AllocErr"],
   ImplementorRecord.mk "impl <a class=\"trait\" href=\"https://doc.rust-lang.org/nightly/core/marker/trait.Send.html\" title=\"trait core::marker::Send\">Send</a> for <a class=\"struct\" href=\"alloc_wg/alloc/struct.Global.html\" title=\"struct alloc_wg::alloc::Global\">Global</a>" true ["alloc_wg::alloc::Global"],
   ImplementorRecord.mk "impl&lt;A&gt; <a class=\"trait\" href=\"https://doc.rust-lang.org/nightly/core/marker/trait.Send.html\" title=\"trait core::marker::Send\">Send</a> for <a class=\"enum\" href=\"alloc_wg/collections/enum.CollectionAllocErr.html\" title=\"enum alloc_wg::collections::CollectionAllocErr\">CollectionAllocErr</a>&lt;A&gt; <span class=\"where fmt-newline\">where<br>&nbsp;&nbsp;&nbsp;&nbsp;&lt;A as <a class=\"trait\" href=\"alloc_wg/alloc/trait.AllocRef.html\" title=\"trait alloc_wg::alloc::AllocRef\">AllocRef</a>&gt;::<a class=\"type\" href=\"alloc_wg/alloc/trait.AllocRef.html#associatedtype.Error\" title=\"type alloc_wg::alloc::AllocRef::Error\">Error</a>: <a class=\"trait\" href=\"https://doc.rust-lang.org/nightly/core/marker/trait.Send.html\" title=\"trait core::marker::Send\">Send</a>,&nbsp;</span>" true ["alloc_wg::collections::CollectionAllocErr"],
   ImplementorRecord.mk "impl&lt;T, A&gt; <a class=\"trait\" href=\"https://doc.rust-lang.org/nightly/core/marker/trait.Send.html\" title=\"trait core::marker::Send\">Send</a> for <a class=\"struct\" href=\"alloc_wg/raw_vec/struct.RawVec.html\" title=\"struct alloc_wg::raw_vec::RawVec\">RawVec</a>&lt;T, A&gt; <span class=\"where fmt-newline\">where<br>&nbsp;&nbsp;&nbsp;&nbsp;T: <a class=\"trait\" href=\"https://doc.rust-lang.org/nightly/core/marker/trait.Send.html\" title=\"trait core::marker::Send\">Send</a>,<br>&nbsp;&nbsp;&nbsp;&nbsp;&lt;A as <a class=\"trait\" href=\"alloc_wg/alloc/trait.DeallocRef.html\" title=\"trait alloc_wg::alloc::DeallocRef\">DeallocRef</a>&gt;::<a class=\"type\" href=\"alloc_wg/alloc/trait.DeallocRef.html#associatedtype.BuildAlloc\" title=\"type alloc_wg::alloc::DeallocRef::BuildAlloc\">BuildAlloc</a>: <a class=\"trait\" href=\"https://doc.rust-lang.org/nightly/core/marker/trait.Send.html\" title=\"trait core::marker::Send\">Send</a>,&nbsp;</span>" true ["alloc_wg::raw_vec::RawVec"],
   ImplementorRecord.mk "impl&lt;A&gt; <a class=\"trait\" href=\"https://doc.rust-lang.org/nightly/core/marker/trait.Send.html\" title=\"trait core::marker::Send\">Send</a> for <a class=\"struct\" href=\"alloc_wg/string/struct.String.html\" title=\"struct alloc_wg::string::String\">String</a>&lt;A&gt; <span class=\"where fmt-newline\">where<br>&nbsp;&nbsp;&nbsp;&nbsp;&lt;A as <a class=\"trait\" href=\"alloc_wg/alloc/trait.DeallocRef.html\" title=\"trait alloc_wg::alloc::DeallocRef\">DeallocRef</a>&gt;::<a class=\"type\" href=\"alloc_wg/alloc/trait.DeallocRef.html#associatedtype.BuildAlloc\" title=\"type alloc_wg::alloc::DeallocRef::BuildAlloc\">BuildAlloc</a>: <a class=\"trait\" href=\"https://doc.rust-lang.org/nightly/core/marker/trait.Send.html\" title=\"trait core::marker::Send\">Send</a>,&nbsp;</span>" true ["alloc_wg::string::String"],
   ImplementorRecord.mk "impl&lt;A&gt; <a class=\"trait\" href=\"https://doc.rust-lang.org/nightly/core/marker/trait.Send.html\" title=\"trait core::marker::Send\">Send</a> for <a class=\"struct\" href=\"alloc_wg/string/struct.FromUtf8Error.html\" title=\"struct alloc_wg::string::FromUtf8Error\">FromUtf8Error</a>&lt;A&gt; <span class=\"where fmt-newline\">where<br>&nbsp;&nbsp;&nbsp;&nbsp;&lt;A as <a class=\"trait\" href=\"alloc_wg/alloc/trait.DeallocRef.html\" title=\"trait alloc_wg::alloc::DeallocRef\">DeallocRef</a>&gt;::<a class=\"type\" href=\"alloc_wg/alloc/trait.DeallocRef.html#associatedtype.BuildAlloc\" title=\"type alloc_wg::alloc::DeallocRef::BuildAlloc\">BuildAlloc</a>: <a class=\"trait\" href=\"https://doc.rust-lang.org/nightly/core/marker/trait.Send.html\" title=\"trait core::marker::Send\">Send</a>,&nbsp;</span>" true ["alloc_wg::string::FromUtf8Error"],
   ImplementorRecord.mk "impl <a class=\"trait\" href=\"https://doc.rust-lang.org/nightly/core/marker/trait.Send.html\" title=\"trait core::marker::Send\">Send</a> for <a class=\"struct\" href=\"alloc_wg/string/struct.FromUtf16Error.html\" title=\"struct alloc_wg::string::FromUtf16Error\">FromUtf16Error</a>" true ["alloc_wg::string::FromUtf16Error"],
   ImplementorRecord.mk "impl&lt;T, A&gt; <a class=\"trait\" href=\"https://doc.rust-lang.org/nightly/core/marker/trait.Send.html\" title=\"trait core::marker::Send\">Send</a> for <a class=\"struct\" href=\"alloc_wg/vec/struct.Vec.html\" title=\"struct alloc_wg::vec::Vec\">Vec</a>&lt;T, A&gt; <span class=\"where fmt-newline\">where<br>&nbsp;&nbsp;&nbsp;&nbsp;T: <a class=\"trait\" href=\"https://doc.rust-lang.org/nightly/core/marker/trait.Send.html\" title=\"trait core::marker::Send\">Send</a>,<br>&nbsp;&nbsp;&nbsp;&nbsp;&lt;A as <a class=\"trait\" href=\"alloc_wg/alloc/trait.DeallocRef.html\" title=\"trait alloc_wg::alloc::DeallocRef\">DeallocRef</a>&gt;::<a class=\"type\" href=\"alloc_wg/alloc/trait.DeallocRef.html#associatedtype.BuildAlloc\" title=\"type alloc_wg::alloc::DeallocRef::BuildAlloc\">BuildAlloc</a>: <a class=\"trait\" href=\"https://doc.rust-lang.org/nightly/core/marker/trait.Send.html\" title=\"trait core::marker::Send\">Send</a>,&nbsp;</span>" true ["alloc_wg::vec::Vec"],
   ImplementorRecord.mk "impl&lt;\x27a, I, A&gt; <a class=\"trait\" href=\"https://doc.rust-lang.org/nightly/core/marker/trait.Send.html\" title=\"trait core::marker::Send\">Send</a> for <a class=\"struct\" href=\"alloc_wg/vec/struct.Splice.html\" title=\"struct alloc_wg::vec::Splice\">Splice</a>&lt;\x27a, I, A&gt; <span class=\"where fmt-newline\">where<br>&nbsp;&nbsp;&nbsp;&nbsp;I: <a class=\"trait\" href=\"https://doc.rust-lang.org/nightly/core/marker/trait.Send.html\" title=\"trait core::marker::Send\">Send</a>,<br>&nbsp;&nbsp;&nbsp;&nbsp;&lt;I as <a class=\"trait\" href=\"https://doc.rust-lang.org/nightly/core/iter/traits/iterator/trait.Iterator.html\" title=\"trait core::iter::traits::iterator::Iterator\">Iterator</a>&gt;::<a class=\"type\" href=\"https://doc.rust-lang.org/nightly/core/iter/traits/iterator/trait.Iterator.html#associatedtype.Item\" title=\"type core::iter::traits::iterator::Iterator::Item\">Item</a>: <a class=\"trait\" href=\"https://doc.rust-lang.org/nightly/core/marker/trait.Send.html\" title=\"trait core::marker::Send\">Send</a>,&nbsp;</span>" true ["alloc_wg::vec::Splice"],
   ImplementorRecord.mk "impl&lt;\x27a, T, F, A&gt; <a class=\"trait\" href=\"https://doc.rust-lang.org/nightly/core/marker/trait.Send.html\" title=\"trait core::marker::Send\">Send</a> for <a class=\"struct\" href=\"alloc_wg/vec/struct.DrainFilter.html\" title=\"struct alloc_wg::vec::DrainFilter\">DrainFilter</a>&lt;\x27a, T, F, A&gt; <span class=\"where fmt-newline\">where<br>&nbsp;&nbsp;&nbsp;&nbsp;F: <a class=\"trait\" href=\"https://doc.rust-lang.org/nightly/core/marker/trait.Send.html\" title=\"trait core::marker::Send\">Send</a>,<br>&nbsp;&nbsp;&nbsp;&nbsp;T: <a class=\"trait\" href=\"https://doc.rust-lang.org/nightly/core/marker/trait.Send.html\" title=\"trait core::marker::Send\">Send</a>,<br>&nbsp;&nbsp;&nbsp;&nbsp;&lt;A as <a class=\"trait\" href=\"alloc_wg/alloc/trait.DeallocRef.html\" title=\"trait alloc_wg::alloc::DeallocRef\">DeallocRef</a>&gt;::<a class=\"type\" href=\"alloc_wg/alloc/trait.DeallocRef.html#associatedtype.BuildAlloc\" title=\"type alloc_wg::alloc::DeallocRef::BuildAlloc\">BuildAlloc</a>: <a class=\"trait\" href=\"https://doc.rust-lang.org/nightly/core/marker/trait.Send.html\" title=\"trait core::marker::Send\">Send</a>,&nbsp;</span>" true ["alloc_wg::vec::DrainFilter"],
   ImplementorRecord.mk "impl&lt;T:&nbsp;?<a class=\"trait\" href=\"https://doc.rust-lang.org/nightly/core/marker/trait.Sized.html\" title=\"trait core::marker::Sized\">Sized</a>, A:&nbsp;<a class=\"trait\" href=\"alloc_wg/alloc/trait.DeallocRef.html\" title=\"trait alloc_wg::alloc::DeallocRef\">DeallocRef</a> + <a class=\"trait\" href=\"https://doc.rust-lang.org/nightly/core/marker/trait.Send.html\" title=\"trait core::marker::Send\">Send</a>&gt; <a class=\"trait\" href=\"https://doc.rust-lang.org/nightly/core/marker/trait.Send.html\" title=\"trait core::marker::Send\">Send</a> for <a class=\"struct\" href=\"alloc_wg/boxed/struct.Box.html\" title=\"struct alloc_wg::boxed::Box\">Box</a>&lt;T, A&gt;" false ["alloc_wg::boxed::Box"],
   ImplementorRecord.mk "impl&lt;\x27_, A:&nbsp;<a class=\"trait\" href=\"alloc_wg/alloc/trait.DeallocRef.html\" title=\"trait alloc_wg::alloc::DeallocRef\">DeallocRef</a>&gt; <a class=\"trait\" href=\"https://doc.rust-lang.org/nightly/core/marker/trait.Send.html\" title=\"trait core::marker::Send\">Send</a> for <a class=\"struct\" href=\"alloc_wg/string/struct.Drain.html\" title=\"struct alloc_wg::string::Drain\">Drain</a>&lt;\x27_, A&gt;" false ["alloc_wg::string::Drain"],
   ImplementorRecord.mk "impl&lt;T:&nbsp;<a class=\"trait\" href=\"https://doc.rust-lang.org/nightly/core/marker/trait.Send.html\" title=\"trait core::marker::Send\">Send</a>&gt; <a class=\"trait\" href=\"https://doc.rust-lang.org/nightly/core/marker/trait.Send.html\" title=\"trait core::marker::Send\">Send</a> for <a class=\"struct\" href=\"alloc_wg/vec/struct.IntoIter.html\" title=\"struct alloc_wg::vec::IntoIter\">IntoIter</a>&lt;T&gt;" false ["alloc_wg::vec::IntoIter"],
   ImplementorRecord.mk "impl&lt;\x27_, T:&nbsp;<a class=\"trait\" href=\"https://doc.rust-lang.org/nightly/core/marker/trait.Send.html\" title=\"trait core::marker::Send\">Send</a>, A:&nbsp;<a class=\"trait\" href=\"alloc_wg/alloc/trait.DeallocRef.html\" title=\"trait alloc_wg::alloc::DeallocRef\">DeallocRef</a>&gt; <a class=\"trait\" href=\"https://doc.rust-lang.org/nightly/core/marker/trait.Send.html\" title=\"trait core::marker::Send\">Send</a> for <a class=\"struct\" href=\"alloc_wg/vec/struct.Drain.html\" title=\"struct alloc_wg::vec::Drain\">Drain</a>&lt;\x27_, T, A&gt;" false ["alloc_wg::vec::Drain"],
  ])]

end TraitSend

namespace TraitDrop

/-- The literal `implementors` table of the second generated file (`src/unnamed/part_000`, the `trait.Drop` implementors file). -/
def implementors : Table := [("alloc_wg",
  [
   ImplementorRecord.mk "impl&lt;T:&nbsp;?<a class=\"trait\" href=\"https://doc.rust-lang.org/nightly/core/marker/trait.Sized.html\" title=\"trait core::marker::Sized\">Sized</a>, A:&nbsp;<a class=\"trait\" href=\"alloc_wg/alloc/trait.DeallocRef.html\" title=\"trait alloc_wg::alloc::DeallocRef\">DeallocRef</a>&gt; <a class=\"trait\" href=\"https://doc.rust-lang.org/nightly/core/ops/drop/trait.Drop.html\" title=\"trait core::ops::drop::Drop\">Drop</a> for <a class=\"struct\" href=\"alloc_wg/boxed/struct.Box.html\" title=\"struct alloc_wg::boxed::Box\">Box</a>&lt;T, A&gt;" false ["alloc_wg::boxed::Box"],
   ImplementorRecord.mk "impl&lt;T, A:&nbsp;<a class=\"trait\" href=\"alloc_wg/alloc/trait.DeallocRef.html\" title=\"trait alloc_wg::alloc::DeallocRef\">DeallocRef</a>&gt; <a class=\"trait\" href=\"https://doc.rust-lang.org/nightly/core/ops/drop/trait.Drop.html\" title=\"trait core::ops::drop::Drop\">Drop</a> for <a class=\"struct\" href=\"alloc_wg/raw_vec/struct.RawVec.html\" title=\"struct alloc_wg::raw_vec::RawVec\">RawVec</a>&lt;T, A&gt;" false ["alloc_wg::raw_vec::RawVec"],
   ImplementorRecord.mk "impl&lt;\x27_, A:&nbsp;<a class=\"trait\" href=\"alloc_wg/alloc/trait.DeallocRef.html\" title=\"trait alloc_wg::alloc::DeallocRef\">DeallocRef</a>&gt; <a class=\"trait\" href=\"https://doc.rust-lang.org/nightly/core/ops/drop/trait.Drop.html\" title=\"trait core::ops::drop::Drop\">Drop</a> for <a class=\"struct\" href=\"alloc_wg/string/struct.Drain.html\" title=\"struct alloc_wg::string::Drain\">Drain</a>&lt;\x27_, A&gt;" false ["alloc_wg::string::Drain"],
   ImplementorRecord.mk "impl&lt;T, A:&nbsp;<a class=\"trait\" href=\"alloc_wg/alloc/trait.DeallocRef.html\" title=\"trait alloc_wg::alloc::DeallocRef\">DeallocRef</a>&gt; <a class=\"trait\" href=\"https://doc.rust-lang.org/nightly/core/ops/drop/trait.Drop.html\" title=\"trait core::ops::drop::Drop\">Drop</a> for <a class=\"struct\" href=\"alloc_wg/vec/struct.Vec.html\" title=\"struct alloc_wg::vec::Vec\">Vec</a>&lt;T, A&gt;" false ["alloc_wg::vec::Vec"],
   ImplementorRecord.mk "impl&lt;T&gt; <a class=\"trait\" href=\"https://doc.rust-lang.org/nightly/core/ops/drop/trait.Drop.html\" title=\"trait core::ops::drop::Drop\">Drop</a> for <a class=\"struct\" href=\"alloc_wg/vec/struct.IntoIter.html\" title=\"struct alloc_wg::vec::IntoIter\">IntoIter</a>&lt;T&gt;" false ["alloc_wg::vec::IntoIter"],
   ImplementorRecord.mk "impl&lt;\x27_, T, A:&nbsp;<a class=\"trait\" href=\"alloc_wg/alloc/trait.DeallocRef.html\" title=\"trait alloc_wg::alloc::DeallocRef\">DeallocRef</a>&gt; <a class=\"trait\" href=\"https://doc.rust-lang.org/nightly/core/ops/drop/trait.Drop.html\" title=\"trait core::ops::drop::Drop\">Drop</a> for <a class=\"struct\" href=\"alloc_wg/vec/struct.Drain.html\" title=\"struct alloc_wg::vec::Drain\">Drain</a>&lt;\x27_, T, A&gt;" false ["alloc_wg::vec::Drain"],
   ImplementorRecord.mk "impl&lt;\x27_, I:&nbsp;<a class=\"trait\" href=\"https://doc.rust-lang.org/nightly/core/iter/traits/iterator/trait.Iterator.html\" title=\"trait core::iter::traits::iterator::Iterator\">Iterator</a>, A&gt; <a class=\"trait\" href=\"https://doc.rust-lang.org/nightly/core/ops/drop/trait.Drop.html\" title=\"trait core::ops::drop::Drop\">Drop</a> for <a class=\"struct\" href=\"alloc_wg/vec/struct.Splice.html\" title=\"struct alloc_wg::vec::Splice\">Splice</a>&lt;\x27_, I, A&gt; <span class=\"where fmt-newline\">where<br>&nbsp;&nbsp;&nbsp;&nbsp;A: <a class=\"trait\" href=\"alloc_wg/alloc/trait.ReallocRef.html\" title=\"trait alloc_wg::alloc::ReallocRef\">ReallocRef</a>,&nbsp;</span>" false ["alloc_wg::vec::Splice"],
   ImplementorRecord.mk "impl&lt;\x27_, T, F, A:&nbsp;<a class=\"trait\" href=\"alloc_wg/alloc/trait.DeallocRef.html\" title=\"trait alloc_wg::alloc::DeallocRef\">DeallocRef</a>&gt; <a class=\"trait\" href=\"https://doc.rust-lang.org/nightly/core/ops/drop/trait.Drop.html\" title=\"trait core::ops::drop::Drop\">Drop</a> for <a class=\"struct\" href=\"alloc_wg/vec/struct.DrainFilter.html\" title=\"struct alloc_wg::vec::DrainFilter\">DrainFilter</a>&lt;\x27_, T, F, A&gt; <span class=\"where fmt-newline\">where<br>&nbsp;&nbsp;&nbsp;&nbsp;F: <a class=\"trait\" href=\"https://doc.rust-lang.org/nightly/core/ops/function/trait.FnMut.html\" title=\"trait core::ops::function::FnMut\">FnMut</a>(<a class=\"primitive\" href=\"https://doc.rust-lang.org/nightly/std/primitive.reference.html\">&amp;mut </a>T) -&gt; <a class=\"primitive\" href=\"https://doc.rust-lang.org/nightly/std/primitive.bool.html\">bool</a>,&nbsp;</span>" false ["alloc_wg::vec::DrainFilter"],
  ])]

end TraitDrop

/-- The possible JavaScript values of the host property
`window.register_implementors`, distinguished as far as the module can
observe them: the branch condition observes truthiness, the call in the
then-branch additionally requires the value to be callable. -/
inductive HostSlot where
  | undefined
  | null
  | boolean (b : Bool)
  | number (n : Int)
  | string (s : String)
  | callable
deriving DecidableEq, Repr

/-- ECMAScript ToBoolean on the representable host values: `undefined`,
`null`, `false`, `0` and `""` are falsy; everything else (including any
function object) is truthy. -/
def HostSlot.truthy : HostSlot → Bool
  | .undefined => false
  | .null => false
  | .boolean b => b
  | .number n => n != 0
  | .string s => s != ""
  | .callable => true

/-- Whether the host value is a function object, i.e. whether
`window.register_implementors(implementors)` can be performed on it. -/
def HostSlot.isCallable : HostSlot → Bool
  | .callable => true
  | _ => false

/-- The part of the global `window` object the module reads or writes:
the `register_implementors` property and the `pending_implementors` slot
(`none` when the property is unset). -/
structure Window where
  register_implementors : HostSlot
  pending_implementors : Option Table
deriving DecidableEq, Repr

/-- The observable effects a load can perform: invoking the consumer
`window.register_implementors` with a table, or writing a table to
`window.pending_implementors`. -/
inductive Event where
  | consumerInvoked (t : Table)
  | pendingWritten (t : Table)
deriving DecidableEq, Repr

/-- Outcome of evaluating the IIFE: normal completion with the final window
state and the list of effects performed, in order; or a thrown TypeError
(ECMAScript semantics of calling a non-callable value), which leaves the
window unchanged and performs no hand-off. -/
inductive LoadResult where
  | ok (w : Window) (events : List Event)
  | typeError (w : Window)
deriving DecidableEq, Repr

/-- The IIFE of a generated implementors file, applied to its table literal
`table` and the current window `w`:

  if (window.register_implementors) {
      window.register_implementors(implementors);
  } else {
      window.pending_implementors = implementors;
  }

The condition is the truthiness of the property; a truthy non-callable value
makes the call throw a TypeError. -/
def loadModule (table : Table) (w : Window) : LoadResult :=
  if w.register_implementors.truthy then
    if w.register_implementors.isCallable then
      LoadResult.ok w [Event.consumerInvoked table]
    else
      LoadResult.typeError w
  else
    LoadResult.ok { w with pending_implementors := some table }
      [Event.pendingWritten table]

/-- Loading `trait.Send.js`: its table literal is `TraitSend.implementors`. -/
def loadSendModule (w : Window) : LoadResult := loadModule TraitSend.implementors w

/-- Loading the `trait.Drop` implementors file: its table literal is
`TraitDrop.implementors`. -/
def loadDropModule (w : Window) : LoadResult := loadModule TraitDrop.implementors w

/-- The events a load performed (a thrown TypeError performs none). -/
def LoadResult.events : LoadResult → List Event
  | .ok _ es => es
  | .typeError _ => []

/-- The window state after the load. -/
def LoadResult.window : LoadResult → Window
  | .ok w _ => w
  | .typeError w => w

/-- Whether the load completed without a thrown error. -/
def LoadResult.isOk : LoadResult → Bool
  | .ok _ _ => true
  | .typeError _ => false

/-- The table carried by an effect. -/
def Event.payload : Event → Table
  | .consumerInvoked t => t
  | .pendingWritten t => t

/-- Whether an effect is an invocation of the consumer callback. -/
def Event.isConsumerInvocation : Event → Bool
  | .consumerInvoked _ => true
  | .pendingWritten _ => false

/-- Whether an effect is a write to the pending slot. -/
def Event.isPendingWrite : Event → Bool
  | .consumerInvoked _ => false
  | .pendingWritten _ => true

/-- How many times the load invoked the consumer callback. -/
def consumerInvocations (r : LoadResult) : Nat :=
  (r.events.filter Event.isConsumerInvocation).length

/-- How many times the load wrote `window.pending_implementors`. -/
def pendingWrites (r : LoadResult) : Nat :=
  (r.events.filter Event.isPendingWrite).length

/-- The table the load delivered (to the consumer or to the pending slot),
if any: the payload of the first hand-off effect. -/
def delivered (r : LoadResult) : Option Table :=
  (r.events.map Event.payload).head?

/-- The keys of a table, in construction order. -/
def tableKeys (t : Table) : List String := t.map Prod.fst

/-- All implementor records of a table, in construction order. -/
def allRecords (t : Table) : List ImplementorRecord := (t.map Prod.snd).flatten

/-- Number of `::` separators in a character list. -/
def sepCount : List Char → Nat
  | ':' :: ':' :: cs => sepCount cs + 1
  | _ :: cs => sepCount cs
  | [] => 0

/-- Modelled from the spec: a fully-qualified path (the spec speaks of
"a fully-qualified trait path" and of locating a type "within its defining
module hierarchy") names at least a crate and an item, i.e. contains the
`::` separator. -/
def isQualifiedPath (s : String) : Bool := decide (0 < sepCount s.data)

/-- Modelled from the spec: a single identifier — one level of a module
path — contains no `::` separator. -/
def isSingleIdentifier (s : String) : Bool := decide (sepCount s.data = 0)

/-- The leading path segment (the crate name) of a path string: its
characters up to the first `:`. -/
def crateSeg (s : String) : List Char := s.data.takeWhile (fun c => c != ':')

/-- Any table a load delivers — whether to the consumer or to the pending
slot — is the module's table itself. -/
theorem delivered_loadModule_eq (t : Table) (w : Window) (t' : Table)
    (h : delivered (loadModule t w) = some t') : t' = t := by
  unfold loadModule at h
  split at h
  · split at h
    · simp [delivered, LoadResult.events, Event.payload] at h
      exact h.symm
    · simp [delivered, LoadResult.events] at h
  · simp [delivered, LoadResult.events, Event.payload] at h
    exact h.symm

/-- Claim C1: when the global consumer function `register_implementors` is
present (a callable value) at load time, the load invokes it synchronously,
exactly once, with the implementors table, and the pending slot
`window.pending_implementors` stays unset. -/
theorem register_implementors_present_invoked_once
    (t : Table) (w : Window)
    (hc : w.register_implementors = HostSlot.callable)
    (hp : w.pending_implementors = none) :
    loadModule t w = LoadResult.ok w [Event.consumerInvoked t] ∧
    consumerInvocations (loadModule t w) = 1 ∧
    (loadModule t w).window.pending_implementors = none := by
  have hload : loadModule t w = LoadResult.ok w [Event.consumerInvoked t] := by
    simp [loadModule, hc, HostSlot.truthy, HostSlot.isCallable]
  refine ⟨hload, ?_, ?_⟩
  · simp [consumerInvocations, hload, LoadResult.events, List.filter,
      Event.isConsumerInvocation]
  · simp [hload, LoadResult.window, hp]

/-- Concrete run of C1: loading `trait.Send.js` with a callable consumer and
an unset pending slot. -/
theorem register_implementors_present_invoked_once_witness :
    (Window.mk HostSlot.callable none).register_implementors = HostSlot.callable ∧
    (Window.mk HostSlot.callable none).pending_implementors = none ∧
    (loadModule TraitSend.implementors (Window.mk HostSlot.callable none) =
       LoadResult.ok (Window.mk HostSlot.callable none)
         [Event.consumerInvoked TraitSend.implementors] ∧
     consumerInvocations
       (loadModule TraitSend.implementors (Window.mk HostSlot.callable none)) = 1 ∧
     (loadModule TraitSend.implementors
       (Window.mk HostSlot.callable none)).window.pending_implementors = none) :=
  ⟨rfl, rfl, register_implementors_present_invoked_once TraitSend.implementors
    (Window.mk HostSlot.callable none) rfl rfl⟩

/-- Claim C2: when no consumer is registered (the slot is falsy), the table
stored in `window.pending_implementors` is exactly the table that a callable
consumer would have received — both delivery paths hand off equal tables. -/
theorem pending_equals_direct_delivery
    (t : Table) (w w' : Window)
    (hw : w.register_implementors.truthy = false)
    (hw' : w'.register_implementors = HostSlot.callable) :
    (loadModule t w).window.pending_implementors = some t ∧
    delivered (loadModule t w) = delivered (loadModule t w') ∧
    delivered (loadModule t w') = some t := by
  have h1 : loadModule t w =
      LoadResult.ok { w with pending_implementors := some t }
        [Event.pendingWritten t] := by
    simp [loadModule, hw]
  have h2 : loadModule t w' = LoadResult.ok w' [Event.consumerInvoked t] := by
    simp [loadModule, hw', HostSlot.truthy, HostSlot.isCallable]
  refine ⟨?_, ?_, ?_⟩ <;>
    simp [h1, h2, delivered, LoadResult.events, LoadResult.window, Event.payload]

/-- Concrete run of C2: Send table, one window with no consumer at all, one
with a callable consumer. -/
theorem pending_equals_direct_delivery_witness :
    (Window.mk HostSlot.undefined none).register_implementors.truthy = false ∧
    (Window.mk HostSlot.callable none).register_implementors = HostSlot.callable ∧
    ((loadModule TraitSend.implementors
        (Window.mk HostSlot.undefined none)).window.pending_implementors =
      some TraitSend.implementors ∧
     delivered (loadModule TraitSend.implementors (Window.mk HostSlot.undefined none)) =
       delivered (loadModule TraitSend.implementors (Window.mk HostSlot.callable none)) ∧
     delivered (loadModule TraitSend.implementors (Window.mk HostSlot.callable none)) =
       some TraitSend.implementors) :=
  ⟨rfl, rfl, pending_equals_direct_delivery TraitSend.implementors
    (Window.mk HostSlot.undefined none) (Window.mk HostSlot.callable none) rfl rfl⟩

/-- Claim C3: whatever table a load of the module delivers is the constructed
table itself: no record mutated, none lost, keys and record order
preserved. -/
theorem handoff_delivers_table_unchanged
    (t : Table) (w : Window) (t' : Table)
    (h : delivered (loadModule t w) = some t') :
    t' = t ∧ allRecords t' = allRecords t ∧ tableKeys t' = tableKeys t := by
  have ht := delivered_loadModule_eq t w t' h
  exact ⟨ht, by rw [ht], by rw [ht]⟩

/-- Concrete run of C3: delivery of the Drop table to a callable consumer. -/
theorem handoff_delivers_table_unchanged_witness :
    delivered (loadModule TraitDrop.implementors (Window.mk HostSlot.callable none)) =
      some TraitDrop.implementors ∧
    (TraitDrop.implementors = TraitDrop.implementors ∧
     allRecords TraitDrop.implementors = allRecords TraitDrop.implementors ∧
     tableKeys TraitDrop.implementors = tableKeys TraitDrop.implementors) :=
  ⟨rfl, handoff_delivers_table_unchanged TraitDrop.implementors
    (Window.mk HostSlot.callable none) TraitDrop.implementors rfl⟩

/-- Claim C4: in any single load, the consumer is invoked at most once, the
pending slot is written at most once, and at most one hand-off effect occurs
in total — after the first delivery the load performs no further
transitions. -/
theorem sink_invoked_at_most_once (t : Table) (w : Window) :
    consumerInvocations (loadModule t w) ≤ 1 ∧
    pendingWrites (loadModule t w) ≤ 1 ∧
    (loadModule t w).events.length ≤ 1 := by
  unfold loadModule
  split
  · split <;>
      simp [consumerInvocations, pendingWrites, LoadResult.events, List.filter,
        Event.isConsumerInvocation, Event.isPendingWrite]
  · simp [consumerInvocations, pendingWrites, LoadResult.events, List.filter,
      Event.isConsumerInvocation, Event.isPendingWrite]

/-- Counterexample to C5: both constructed tables use the key "alloc_wg",
which is a bare crate name, not a fully-qualified trait path — it contains no
path separator, and the same key groups the records of two different traits
(Send and Drop). -/
theorem table_keys_not_trait_paths :
    tableKeys TraitSend.implementors = ["alloc_wg"] ∧
    tableKeys TraitDrop.implementors = ["alloc_wg"] ∧
    isQualifiedPath "alloc_wg" = false :=
  ⟨rfl, rfl, by decide⟩

/-- Claim C5 (amended): every key of a constructed table is the crate name
whose implementations the records describe — it equals the leading path
segment of every record's type path — the trait being identified by the
file, not by the key; keys are unique per table. -/
theorem table_keys_are_crate_names :
    tableKeys TraitSend.implementors = ["alloc_wg"] ∧
    tableKeys TraitDrop.implementors = ["alloc_wg"] ∧
    (tableKeys TraitSend.implementors).Nodup ∧
    (tableKeys TraitDrop.implementors).Nodup ∧
    (allRecords TraitSend.implementors).all
      (fun r => r.types.all (fun s => crateSeg s == "alloc_wg".data)) = true ∧
    (allRecords TraitDrop.implementors).all
      (fun r => r.types.all (fun s => crateSeg s == "alloc_wg".data)) = true :=
  ⟨rfl, rfl, by decide, by decide, by decide, by decide⟩

/-- Counterexample to C6: in the constructed tables the `types` field of a
record is not a sequence with one identifier per module-path level; its first
record's `types` is the singleton ["alloc_wg::boxed::Box"], whose only
element is a whole `::`-joined path, not a single identifier. -/
theorem typePath_not_one_identifier_per_level :
    (allRecords TraitDrop.implementors).all
      (fun r => r.types.all isSingleIdentifier) = false ∧
    ((allRecords TraitDrop.implementors).map ImplementorRecord.types).head? =
      some ["alloc_wg::boxed::Box"] ∧
    isSingleIdentifier "alloc_wg::boxed::Box" = false :=
  ⟨by decide, rfl, by decide⟩

/-- Claim C6 (amended): every record of both constructed tables carries a
boolean `synthetic` flag and a nonempty `types` list whose elements are
fully-qualified `::`-joined path strings rooted at the crate `alloc_wg` —
the module hierarchy is encoded inside each string, not one list element per
level. -/
theorem record_fields_shape :
    (allRecords TraitSend.implementors ++ allRecords TraitDrop.implementors).all
      (fun r => (!r.types.isEmpty) &&
        r.types.all (fun s => isQualifiedPath s && (crateSeg s == "alloc_wg".data))) =
      true :=
  by decide

/-- Claim C7: the module takes no input — the delivered table is the fixed
literal constant, so any two loads of `trait.Send.js` that deliver a table
deliver the same one, whatever the host state. -/
theorem delivered_table_constant
    (w1 w2 : Window) (t1 t2 : Table)
    (h1 : delivered (loadSendModule w1) = some t1)
    (h2 : delivered (loadSendModule w2) = some t2) :
    t1 = TraitSend.implementors ∧ t2 = TraitSend.implementors ∧ t1 = t2 := by
  have e1 := delivered_loadModule_eq TraitSend.implementors w1 t1 h1
  have e2 := delivered_loadModule_eq TraitSend.implementors w2 t2 h2
  exact ⟨e1, e2, e1.trans e2.symm⟩

/-- Concrete run of C7: one load with a callable consumer, one with no
consumer — both deliver the Send table. -/
theorem delivered_table_constant_witness :
    delivered (loadSendModule (Window.mk HostSlot.callable none)) =
      some TraitSend.implementors ∧
    delivered (loadSendModule (Window.mk HostSlot.undefined none)) =
      some TraitSend.implementors ∧
    (TraitSend.implementors = TraitSend.implementors ∧
     TraitSend.implementors = TraitSend.implementors ∧
     TraitSend.implementors = TraitSend.implementors) :=
  ⟨rfl, rfl, delivered_table_constant (Window.mk HostSlot.callable none)
    (Window.mk HostSlot.undefined none) TraitSend.implementors
    TraitSend.implementors rfl rfl⟩

/-- Counterexample to C8: in the host state where
`window.register_implementors` holds the truthy non-callable value 1, the
branch is taken and the call throws a TypeError, so the load does fail. -/
theorem truthy_noncallable_throws :
    loadModule TraitSend.implementors (Window.mk (HostSlot.number 1) none) =
      LoadResult.typeError (Window.mk (HostSlot.number 1) none) ∧
    (loadModule TraitSend.implementors
      (Window.mk (HostSlot.number 1) none)).isOk = false :=
  ⟨rfl, rfl⟩

/-- Claim C8 (amended): for every host state in which
`window.register_implementors` is callable whenever it is truthy,
construction of the table and the hand-off complete without raising any
error originating from this artifact. -/
theorem no_failure_when_slot_wellformed (t : Table) (w : Window)
    (h : w.register_implementors.truthy = true →
      w.register_implementors = HostSlot.callable) :
    (loadModule t w).isOk = true := by
  by_cases ht : w.register_implementors.truthy = true
  · have hc := h ht
    simp [loadModule, hc, HostSlot.truthy, HostSlot.isCallable, LoadResult.isOk]
  · have ht' : w.register_implementors.truthy = false := by
      cases hb : w.register_implementors.truthy
      · rfl
      · exact absurd hb ht
    simp [loadModule, ht', LoadResult.isOk]

/-- Concrete run of amended C8: the slot is unset, the load completes
normally. -/
theorem no_failure_when_slot_wellformed_witness :
    ((Window.mk HostSlot.undefined none).register_implementors.truthy = true →
      (Window.mk HostSlot.undefined none).register_implementors = HostSlot.callable) ∧
    (loadModule TraitSend.implementors (Window.mk HostSlot.undefined none)).isOk = true :=
  ⟨by decide, no_failure_when_slot_wellformed TraitSend.implementors
    (Window.mk HostSlot.undefined none) (by decide)⟩

/-- Claim C9: the branch tests truthiness, not existence: whenever
`window.register_implementors` is falsy — including the defined falsy values
`null`, `0` and `false`, all distinct from `undefined` — the consumer is not
invoked and the table goes to `window.pending_implementors`. -/
theorem falsy_slot_stores_pending (t : Table) (w : Window)
    (h : w.register_implementors.truthy = false) :
    loadModule t w =
      LoadResult.ok { w with pending_implementors := some t }
        [Event.pendingWritten t] ∧
    consumerInvocations (loadModule t w) = 0 ∧
    (HostSlot.null.truthy = false ∧ HostSlot.null ≠ HostSlot.undefined) ∧
    ((HostSlot.number 0).truthy = false ∧ HostSlot.number 0 ≠ HostSlot.undefined) ∧
    ((HostSlot.boolean false).truthy = false ∧
      HostSlot.boolean false ≠ HostSlot.undefined) := by
  have hload : loadModule t w =
      LoadResult.ok { w with pending_implementors := some t }
        [Event.pendingWritten t] := by
    simp [loadModule, h]
  refine ⟨hload, ?_, by decide, by decide, by decide⟩
  simp [consumerInvocations, hload, LoadResult.events, List.filter,
    Event.isConsumerInvocation]

/-- Concrete run of C9: the slot holds the defined but falsy value `null`. -/
theorem falsy_slot_stores_pending_witness :
    (Window.mk HostSlot.null none).register_implementors.truthy = false ∧
    (loadModule TraitSend.implementors (Window.mk HostSlot.null none) =
       LoadResult.ok (Window.mk HostSlot.null (some TraitSend.implementors))
         [Event.pendingWritten TraitSend.implementors] ∧
     consumerInvocations
       (loadModule TraitSend.implementors (Window.mk HostSlot.null none)) = 0 ∧
     (HostSlot.null.truthy = false ∧ HostSlot.null ≠ HostSlot.undefined) ∧
     ((HostSlot.number 0).truthy = false ∧ HostSlot.number 0 ≠ HostSlot.undefined) ∧
     ((HostSlot.boolean false).truthy = false ∧
       HostSlot.boolean false ≠ HostSlot.undefined)) :=
  ⟨rfl, falsy_slot_stores_pending TraitSend.implementors
    (Window.mk HostSlot.null none) rfl⟩

/-- Claim C10: with no consumer registered, the load overwrites
`window.pending_implementors` unconditionally: afterwards the slot holds the
new table, and any different table it held before is lost. -/
theorem pending_slot_overwritten (tnew told : Table) (w : Window)
    (h : w.register_implementors.truthy = false)
    (_hp : w.pending_implementors = some told) :
    (loadModule tnew w).window.pending_implementors = some tnew ∧
    (told ≠ tnew →
      (loadModule tnew w).window.pending_implementors ≠ some told) := by
  have hload : loadModule tnew w =
      LoadResult.ok { w with pending_implementors := some tnew }
        [Event.pendingWritten tnew] := by
    simp [loadModule, h]
  constructor
  · simp [hload, LoadResult.window]
  · intro hne hcontra
    simp [hload, LoadResult.window] at hcontra
    exact hne hcontra.symm

/-- Concrete run of C10: the Drop table sits in the pending slot, loading
`trait.Send.js` with no consumer replaces it with the Send table. -/
theorem pending_slot_overwritten_witness :
    (Window.mk HostSlot.undefined
      (some TraitDrop.implementors)).register_implementors.truthy = false ∧
    (Window.mk HostSlot.undefined
      (some TraitDrop.implementors)).pending_implementors =
      some TraitDrop.implementors ∧
    TraitDrop.implementors ≠ TraitSend.implementors ∧
    ((loadModule TraitSend.implementors
        (Window.mk HostSlot.undefined
          (some TraitDrop.implementors))).window.pending_implementors =
      some TraitSend.implementors ∧
     (TraitDrop.implementors ≠ TraitSend.implementors →
       (loadModule TraitSend.implementors
         (Window.mk HostSlot.undefined
           (some TraitDrop.implementors))).window.pending_implementors ≠
         some TraitDrop.implementors)) :=
  ⟨rfl, rfl, by decide, pending_slot_overwritten TraitSend.implementors
    TraitDrop.implementors
    (Window.mk HostSlot.undefined (some TraitDrop.implementors)) rfl rfl⟩

end AllocWg
